import Mathlib

/-!
WeatherCard.jsx: condition classifier, response normaliser, search and preference

A shallow embedding of `src/components/WeatherCard.jsx`.

* JavaScript values that reach the component from `res.json()` are values of `Json`;
  `undefined` (an absent property) is `none : Option Json`.
* Strings are Lean strings. `toLowerCase` lowers the letters `A`..`Z`. The ECMAScript
  operation also maps non-ASCII letters, but the only non-ASCII characters whose image
  contains an ASCII letter are U+212A (to `k`) and U+0130 (to `i` followed by U+0307);
  no keyword tested by `getTheme` contains `k` or ends in `i`, so the seven substring
  tests have the same outcome under both operations.
* Numbers are integers: the embedded code only asks whether a number is zero.
* A thrown JavaScript error is a `JsError` carrying its `message`.
* An error thrown while the component renders or runs an effect is caught by nothing in
  the source: the tree is unmounted, and the step yields an error instead of a state.
-/

namespace WeatherCard

/-! ## JavaScript values -/

/-- A value produced by `JSON.parse`. An object is its list of own properties. -/
inductive Json where
  | null
  | bool (b : Bool)
  | num (n : Int)
  | str (s : String)
  | arr (xs : List Json)
  | obj (kvs : List (String × Json))

/-- A JavaScript value as the component sees it: `none` is `undefined`. -/
abbrev JsVal := Option Json

/-- A thrown error; `message` is what `err.message` reads. -/
structure JsError where
  message : String
  deriving DecidableEq

/-- JavaScript truthiness (`!v` is its negation). -/
def truthy : JsVal → Bool
  | none => false
  | some Json.null => false
  | some (Json.bool b) => b
  | some (Json.num n) => n != 0
  | some (Json.str s) => s != ""
  | some (Json.arr _) => true
  | some (Json.obj _) => true

/-- The operator `a || b`: `a` when it is truthy, otherwise `b`. -/
def jsOr (a b : JsVal) : JsVal :=
  if truthy a then a else b

/-- Own-property lookup in a parsed object. -/
def lookupKey (k : String) : List (String × Json) → JsVal
  | [] => none
  | (k', v) :: rest => if k' = k then some v else lookupKey k rest

/-- Property read `v.k` for a named key `k` that no built-in prototype defines (every
key the component reads is such a key). Reading a property of `null` or `undefined`
throws a `TypeError`; a primitive or an array has no such property. -/
def getProp (v : JsVal) (k : String) : Except JsError JsVal :=
  match v with
  | none => .error ⟨"Cannot read properties of undefined"⟩
  | some Json.null => .error ⟨"Cannot read properties of null"⟩
  | some (Json.obj kvs) => .ok (lookupKey k kvs)
  | some _ => .ok none

/-- Element read `v[0]` on a value that is neither `null` nor `undefined`: the first
element of an array, the own property `"0"` of an object, the first unit of a string
(here its first character; either way a string primitive, on which the reads that
follow in the source give `undefined`). -/
def index0 : Json → JsVal
  | Json.arr xs => xs.head?
  | Json.obj kvs => lookupKey "0" kvs
  | Json.str s =>
    match s.data with
    | [] => none
    | c :: _ => some (Json.str (String.mk [c]))
  | _ => none

/-- Optional property read `v?.k`: `undefined` when `v` is `null` or `undefined`. -/
def optProp (v : JsVal) (k : String) : JsVal :=
  match v with
  | none => none
  | some Json.null => none
  | some (Json.obj kvs) => lookupKey k kvs
  | some _ => none

/-- Optional element read `v?.[0]`. -/
def optIndex0 (v : JsVal) : JsVal :=
  match v with
  | none => none
  | some Json.null => none
  | some j => index0 j

/-! ## Strings -/

/-- Whether `k` is a prefix of `l`. -/
def startsWith : List Char → List Char → Bool
  | [], _ => true
  | _ :: _, [] => false
  | a :: k, b :: l => a == b && startsWith k l

/-- The test `s.includes(k)` on character lists: `k` occurs in `l` at some position. -/
def includesChars (k : List Char) : List Char → Bool
  | [] => startsWith k []
  | b :: l => startsWith k (b :: l) || includesChars k l

/-- The method `String.prototype.includes`. -/
def includes (s k : String) : Bool :=
  includesChars k.data s.data

/-- The method `String.prototype.toLowerCase`. -/
def toLowerCase (s : String) : String :=
  String.mk (s.data.map Char.toLower)

/-! ## getTheme -/

/-- The six theme tags; `className` gives the string the source returns. -/
inductive ThemeTag where
  | sunny | cloudy | rain | snow | thunder | mist
  deriving DecidableEq, Repr

/-- The string a tag stands for. -/
def ThemeTag.className : ThemeTag → String
  | .sunny => "sunny"
  | .cloudy => "cloudy"
  | .rain => "rain"
  | .snow => "snow"
  | .thunder => "thunder"
  | .mist => "mist"

/-- Lines 7 to 13 of `getTheme`, for a non-empty string `main`. -/
def themeOfString (main : String) : ThemeTag :=
  let m := toLowerCase main
  if includes m "clear" then .sunny
  else if includes m "cloud" then .cloudy
  else if includes m "rain" || includes m "drizzle" then .rain
  else if includes m "snow" then .snow
  else if includes m "thunder" || includes m "storm" then .thunder
  else .mist

/-- The function `getTheme`. A truthy value that is not a string has no `toLowerCase`
method, and calling it throws a `TypeError`. -/
def getTheme (main : JsVal) : Except JsError ThemeTag :=
  if !truthy main then .ok .mist
  else
    match main with
    | some (Json.str s) => .ok (themeOfString s)
    | _ => .error ⟨"main.toLowerCase is not a function"⟩

/-! ## The response normaliser (the object literal `simplified`) -/

/-- The record `simplified` built by `fetchWeather`; an absent field is `undefined`. -/
structure Simplified where
  name : JsVal
  country : JsVal
  temp : JsVal
  feels_like : JsVal
  humidity : JsVal
  wind : JsVal
  description : JsVal
  descriptionMain : JsVal
  icon : JsVal
  main : JsVal

/-- Lines 140 to 151: the object literal evaluated on the parsed body `data`. Only the
reads `data.name`, `data.sys`, `data.main`, `data.wind` and `data.weather` are not
guarded by `?.`; the fields are evaluated in source order, so the first error wins. -/
def normalize (data : Json) : Except JsError Simplified := do
  let name ← getProp (some data) "name"
  let sys ← getProp (some data) "sys"
  let mainBlock ← getProp (some data) "main"
  let windBlock ← getProp (some data) "wind"
  let weather ← getProp (some data) "weather"
  let first := optIndex0 weather
  return {
    name := name
    country := optProp sys "country"
    temp := optProp mainBlock "temp"
    feels_like := optProp mainBlock "feels_like"
    humidity := optProp mainBlock "humidity"
    wind := optProp windBlock "speed"
    description := optProp first "description"
    descriptionMain := optProp first "main"
    icon := optProp first "icon"
    main := optProp first "main" }

/-! ## Component state, effects and `fetchWeather` -/

/-- The six `useState` cells of `WeatherCard`. -/
structure State where
  city : String
  weather : Option Simplified
  loading : Bool
  error : String
  theme : ThemeTag
  dark : Bool

/-- The initial values passed to `useState`. -/
def State.initial : State :=
  { city := "", weather := none, loading := false, error := "", theme := .mist, dark := false }

/-- What `res.json()` settles to: a rejection with a message or the parsed body. -/
abbrev Body := Except String Json

/-- What `fetch(url)` settles to. -/
inductive FetchResult where
  | rejected (message : String)
  | response (status : Nat) (body : Body)

/-- The flag `res.ok`: the status is in the range 200 to 299. -/
def isOk (status : Nat) : Bool :=
  decide (200 ≤ status) && decide (status ≤ 299)

/-- The body of the `try` block (lines 126 to 153) up to the argument of `setWeather`. -/
def tryBlock : FetchResult → Except JsError Simplified
  | .rejected message => .error ⟨message⟩
  | .response status body =>
    if !isOk status then
      if status = 404 then .error ⟨"City not found."⟩
      else if status = 401 then .error ⟨"Invalid API key (401)."⟩
      else .error ⟨"Failed to fetch weather."⟩
    else
      match body with
      | .error message => .error ⟨message⟩
      | .ok data => normalize data

/-- Whether `API_KEY` is truthy. -/
def keyPresent : Option String → Bool
  | none => false
  | some k => k != ""

/-- The function `fetchWeather` (lines 111 to 159) run to completion: the state after
all of its `set...` calls, given the environment value `API_KEY` and what the request
settles to. -/
def fetchWeather (apiKey : Option String) (net : FetchResult) (q : String) (s : State) : State :=
  if q = "" then { s with error := "Please enter a city name." }
  else if !keyPresent apiKey then
    { s with error := "Missing API key. Add VITE_OPENWEATHER_KEY to .env." }
  else
    let s1 := { s with loading := true, error := "", weather := none }
    let s2 :=
      match tryBlock net with
      | .ok simplified => { s1 with weather := some simplified }
      | .error err =>
        { s1 with error := if err.message != "" then err.message else "Something went wrong." }
    { s2 with loading := false }

/-- The effect of lines 99 to 104, run after a render in which `weather` changed. An
error thrown by `getTheme` escapes the effect. -/
def themeEffect (s : State) : Except JsError State :=
  match s.weather with
  | none => .ok s
  | some weather => do
    let main := jsOr weather.descriptionMain weather.description
    let theme ← getTheme (jsOr weather.main main)
    return { s with theme := theme }

/-- Whether a call of `fetchWeather` returns at one of its two validation guards. -/
def validationFails (apiKey : Option String) (q : String) : Bool :=
  q == "" || !keyPresent apiKey

/-! ### Rendering the card (lines 210 to 251)

The component catches nothing thrown while it renders: React then unmounts the whole
tree, no effect of that render runs and nothing is displayed any more. -/

mutual
/-- Whether React accepts the value as a child: a string or a number is text, a boolean
or `null` draws nothing, an array is drawn element by element, and a plain object makes
React throw ("Objects are not valid as a React child"). -/
def validChild : Json → Bool
  | Json.arr xs => validChildren xs
  | Json.obj _ => false
  | _ => true
/-- Whether every element of an array is accepted as a child. -/
def validChildren : List Json → Bool
  | [] => true
  | x :: xs => validChild x && validChildren xs
end

mutual
/-- Whether the value converts to a primitive, as `Math.round(v)`, a template literal
and an attribute value require. A parsed object converts through
`Object.prototype.toString` unless it has an own property `toString`, which is never
callable; an array converts through `join`, which converts each element. -/
def coercible : Json → Bool
  | Json.arr xs => coercibleAll xs
  | Json.obj kvs => (lookupKey "toString" kvs).isNone
  | _ => true
/-- Whether every element of an array converts to a primitive. -/
def coercibleAll : List Json → Bool
  | [] => true
  | x :: xs => coercible x && coercibleAll xs
end

/-- A value used as a child `{v}`; `undefined` draws nothing. -/
def asChild : JsVal → Except JsError Unit
  | none => .ok ()
  | some j =>
    if validChild j then .ok () else .error ⟨"Objects are not valid as a React child"⟩

/-- A value converted to a number or a string; `undefined` converts. -/
def toPrimitive : JsVal → Except JsError Unit
  | none => .ok ()
  | some j =>
    if coercible j then .ok () else .error ⟨"Cannot convert object to primitive value"⟩

/-- The card of lines 211 to 250 for a non-null `weather`. The expressions of the JSX
are evaluated first (`Math.round` on lines 216 and 220, the template literal of line 227
when `weather.icon` is truthy), then React draws the children in document order:
`name` and `country` (line 213), the attribute `alt` of the image (line 228, when
`weather.icon` is truthy), `description` (line 233), `humidity` (line 239), `wind`
(line 243) and `main` (line 247). A falsy `weather.icon` is itself the child on line 224
and is never an object. -/
def renderCard (weather : Simplified) : Except JsError Unit := do
  toPrimitive weather.temp
  toPrimitive weather.feels_like
  if truthy weather.icon then toPrimitive weather.icon
  asChild weather.name
  asChild weather.country
  if truthy weather.icon then toPrimitive weather.description
  asChild weather.description
  asChild weather.humidity
  asChild weather.wind
  asChild weather.main

/-- The render of the component (lines 171 to 262): outside the card, which is drawn
only when `weather` is not null, every child is a string of the component itself. -/
def render (s : State) : Except JsError Unit :=
  match s.weather with
  | none => .ok ()
  | some weather => renderCard weather

/-- A search until the component is at rest: `fetchWeather`, the render of the state it
leaves, then, unless a validation guard returned, the theme effect of that render and
the render of the state the effect leaves. (The render between lines 123 and 130 shows
`weather = null` and draws no card.) An error of a render or of the effect yields no
state: the tree is unmounted. -/
def search (apiKey : Option String) (net : FetchResult) (q : String) (s : State) :
    Except JsError State := do
  let s1 := fetchWeather apiKey net q s
  render s1
  if validationFails apiKey q then
    return s1
  else
    let s2 ← themeEffect s1
    render s2
    return s2

/-- The class list of the root element (line 172). -/
def rootClass (s : State) : String :=
  "wc-app " ++ s.theme.className ++ " " ++ (if s.dark then "dark" else "light")

/-! ## The dark-mode preference -/

/-- The browser store `localStorage`, as its list of entries. -/
abbrev Storage := List (String × String)

/-- The call `localStorage.getItem(k)`; `none` is `null`. -/
def getItem (k : String) : Storage → Option String
  | [] => none
  | (k', v) :: rest => if k' = k then some v else getItem k rest

/-- The call `localStorage.setItem(k, v)`. -/
def setItem (k v : String) : Storage → Storage
  | [] => [(k, v)]
  | (k', v') :: rest => if k' = k then (k, v) :: rest else (k', v') :: setItem k v rest

/-- The key of the preference. -/
def darkKey : String := "wc_dark_mode"

/-- The string written by line 108. -/
def serializeDark (dark : Bool) : String :=
  if dark then "1" else "0"

/-- The effect of lines 107 to 109, run after every render in which `dark` changed. -/
def persistDark (dark : Bool) (store : Storage) : Storage :=
  setItem darkKey (serializeDark dark) store

/-- The effect of lines 93 to 96: the value of `dark` once its `setDark` is applied. -/
def loadDark (store : Storage) (dark : Bool) : Bool :=
  if getItem darkKey store = some "1" then true else dark

/-- Mounting the component on a store: the effects of the first render run in source
order with `dark = false`, then the persist effect runs again if `dark` changed. -/
def startup (store : Storage) : Bool × Storage :=
  let dark := loadDark store State.initial.dark
  let store1 := persistDark State.initial.dark store
  (dark, if dark = State.initial.dark then store1 else persistDark dark store1)

/-! ## Vocabulary of the specification -/

/-- The string `k` is a substring of `s`. -/
def IsSubstring (k s : String) : Prop :=
  k.data <:+: s.data

instance (k s : String) : Decidable (IsSubstring k s) :=
  inferInstanceAs (Decidable (k.data <:+: s.data))

/-- The label contains the word `k` in some letter case: a block `w` of the label
lowers to `k`. -/
def ContainsAnyCase (label k : String) : Prop :=
  ∃ pre w post : String, label = pre ++ w ++ post ∧ toLowerCase w = k

/-- The keyword groups of the classifier in priority order, each with its tag. -/
def keywordGroups : List (List String × ThemeTag) :=
  [(["clear"], .sunny), (["cloud"], .cloudy), (["rain", "drizzle"], .rain),
   (["snow"], .snow), (["thunder", "storm"], .thunder)]

/-- The seven keywords. -/
def keywords : List String :=
  ["clear", "cloud", "rain", "drizzle", "snow", "thunder", "storm"]

/-- The payload `kvs` with every property named `k` removed. -/
def removeKey (k : String) (kvs : List (String × Json)) : List (String × Json) :=
  kvs.filter (fun p => p.1 != k)

/-- A value that is `null` or `undefined`. -/
def nullish : JsVal → Bool
  | none => true
  | some Json.null => true
  | some _ => false

/-- A value that is `undefined`, `null`, a boolean, a number or a string. -/
def isPrimitive : JsVal → Bool
  | some (Json.arr _) => false
  | some (Json.obj _) => false
  | _ => true

/-- The inputs of the contract `string | null`: absent, `null`, or a string. -/
def IsLabel : JsVal → Prop
  | none => True
  | some Json.null => True
  | some (Json.str _) => True
  | some _ => False

/-- The tag of the first keyword group, in priority order, one of whose keywords is a
substring of the lowercased label; `mist` when no group has one. -/
def firstMatch (label : String) : ThemeTag :=
  match keywordGroups.find? (fun g => g.1.any (fun k => decide (IsSubstring k (toLowerCase label)))) with
  | some g => g.2
  | none => .mist

/-- The record built from the five blocks read off the payload. -/
def simplifiedOf (name sys mainBlock windBlock weather : JsVal) : Simplified :=
  { name := name
    country := optProp sys "country"
    temp := optProp mainBlock "temp"
    feels_like := optProp mainBlock "feels_like"
    humidity := optProp mainBlock "humidity"
    wind := optProp windBlock "speed"
    description := optProp (optIndex0 weather) "description"
    descriptionMain := optProp (optIndex0 weather) "main"
    icon := optProp (optIndex0 weather) "icon"
    main := optProp (optIndex0 weather) "main" }

/-- The message shown for a response whose `ok` flag is false. -/
def failureMessage (status : Nat) : String :=
  if status = 404 then "City not found."
  else if status = 401 then "Invalid API key (401)."
  else "Failed to fetch weather."

/-! ## Substring lemmas -/

theorem startsWith_iff (k l : List Char) : startsWith k l = true ↔ k <+: l := by
  induction k generalizing l with
  | nil => simp [startsWith]
  | cons a k ih =>
    cases l with
    | nil => simp [startsWith]
    | cons b l => simp [startsWith, ih, List.cons_prefix_cons]

theorem includesChars_iff (k l : List Char) : includesChars k l = true ↔ k <:+: l := by
  induction l with
  | nil =>
    simp only [includesChars, startsWith_iff]
    constructor
    · intro h; exact h.isInfix
    · intro h
      have := List.eq_nil_of_infix_nil h
      simp [this]
  | cons b l ih =>
    simp only [includesChars, Bool.or_eq_true, startsWith_iff, ih]
    exact List.infix_cons_iff.symm

theorem includes_iff (s k : String) : includes s k = true ↔ IsSubstring k s := by
  simp [includes, IsSubstring, includesChars_iff]

theorem includes_eq_decide (s k : String) : includes s k = decide (IsSubstring k s) := by
  by_cases h : IsSubstring k s
  · simp [h, (includes_iff s k).2 h]
  · have : includes s k = false := by
      cases hc : includes s k
      · rfl
      · exact absurd ((includes_iff s k).1 hc) h
    simp [h, this]

theorem toLowerCase_append (a b : String) :
    toLowerCase (a ++ b) = toLowerCase a ++ toLowerCase b := by
  simp [toLowerCase, String.ext_iff]

theorem isSubstring_of_containsAnyCase (label k : String) (h : ContainsAnyCase label k) :
    IsSubstring k (toLowerCase label) := by
  obtain ⟨pre, w, post, rfl, rfl⟩ := h
  refine ⟨(toLowerCase pre).data, (toLowerCase post).data, ?_⟩
  simp [toLowerCase_append]

theorem lookupKey_removeKey (k k' : String) (kvs : List (String × Json)) (h : k' ≠ k) :
    lookupKey k' (removeKey k kvs) = lookupKey k' kvs := by
  induction kvs with
  | nil => rfl
  | cons p rest ih =>
    obtain ⟨a, v⟩ := p
    by_cases ha : a = k
    · subst ha
      have h1 : removeKey a ((a, v) :: rest) = removeKey a rest := by simp [removeKey]
      rw [h1, ih]
      simp [lookupKey, Ne.symm h]
    · have h1 : removeKey k ((a, v) :: rest) = (a, v) :: removeKey k rest := by
        simp [removeKey, ha]
      rw [h1]
      simp [lookupKey, ih]

theorem lookupKey_removeKey_self (k : String) (kvs : List (String × Json)) :
    lookupKey k (removeKey k kvs) = none := by
  induction kvs with
  | nil => rfl
  | cons p rest ih =>
    obtain ⟨a, v⟩ := p
    by_cases ha : a = k
    · subst ha
      have h1 : removeKey a ((a, v) :: rest) = removeKey a rest := by simp [removeKey]
      rw [h1, ih]
    · have h1 : removeKey k ((a, v) :: rest) = (a, v) :: removeKey k rest := by
        simp [removeKey, ha]
      rw [h1]
      simp [lookupKey, ih, ha]

theorem getItem_setItem (k v : String) (store : Storage) :
    getItem k (setItem k v store) = some v := by
  induction store with
  | nil => simp [setItem, getItem]
  | cons p rest ih =>
    obtain ⟨a, b⟩ := p
    by_cases ha : a = k
    · simp [setItem, getItem, ha]
    · simp [setItem, getItem, ha, ih]

theorem themeOfString_eq_firstMatch (label : String) :
    themeOfString label = firstMatch label := by
  simp only [themeOfString, firstMatch, keywordGroups, List.find?, List.any, includes_eq_decide,
    Bool.or_false]
  by_cases h1 : IsSubstring "clear" (toLowerCase label)
  · simp [h1]
  by_cases h2 : IsSubstring "cloud" (toLowerCase label)
  · simp [h1, h2]
  by_cases h3 : IsSubstring "rain" (toLowerCase label)
  · simp [h1, h2, h3]
  by_cases h4 : IsSubstring "drizzle" (toLowerCase label)
  · simp [h1, h2, h3, h4]
  by_cases h5 : IsSubstring "snow" (toLowerCase label)
  · simp [h1, h2, h3, h4, h5]
  by_cases h6 : IsSubstring "thunder" (toLowerCase label)
  · simp [h1, h2, h3, h4, h5, h6]
  by_cases h7 : IsSubstring "storm" (toLowerCase label)
  · simp [h1, h2, h3, h4, h5, h6, h7]
  · simp [h1, h2, h3, h4, h5, h6, h7]

theorem getTheme_str (s : String) : getTheme (some (.str s)) = .ok (themeOfString s) := by
  by_cases h : s = ""
  · subst h; rfl
  · simp [getTheme, truthy, h]

/-! ## Claims about `getTheme` -/

/-- C1 (amended): for every non-empty condition label, `getTheme` returns the tag of the
first keyword group, in the order clear, cloud, rain or drizzle, snow, thunder or storm,
one of whose keywords is a substring of the lowercased label, and `mist` if none is. A
label containing both "cloud" and "rain" and not "clear" yields `cloudy`, and the three
sample labels yield `thunder`, `rain` and `cloudy`. -/
theorem getTheme_first_matching_group (label : String) (_hne : label ≠ "") :
    getTheme (some (.str label)) = .ok (firstMatch label) ∧
    (IsSubstring "cloud" (toLowerCase label) → IsSubstring "rain" (toLowerCase label) →
      ¬ IsSubstring "clear" (toLowerCase label) →
      getTheme (some (.str label)) = .ok .cloudy) ∧
    getTheme (some (.str "Thunderstorm")) = .ok .thunder ∧
    getTheme (some (.str "Light rain")) = .ok .rain ∧
    getTheme (some (.str "few clouds")) = .ok .cloudy := by
  refine ⟨?_, ?_, rfl, rfl, rfl⟩
  · rw [getTheme_str, themeOfString_eq_firstMatch]
  · intro hcloud _ hclear
    rw [getTheme_str]
    simp only [themeOfString, includes_eq_decide]
    simp [hcloud, hclear]

/-- C1 (witness): the label "Broken clouds, light rain" is not empty, contains "cloud"
and "rain" and not "clear", and is classified `cloudy`. -/
theorem getTheme_first_matching_group_witness :
    getTheme (some (.str "Broken clouds, light rain")) = .ok .cloudy :=
  ((getTheme_first_matching_group "Broken clouds, light rain" (by decide)).2.1
    (by decide) (by decide) (by decide))

/-- C1 (counterexample): the label "Clear, clouds and rain later" contains both "cloud"
and "rain", yet `getTheme` returns `sunny`, not `cloudy`. -/
theorem getTheme_cloud_and_rain_not_cloudy :
    IsSubstring "cloud" (toLowerCase "Clear, clouds and rain later") ∧
    IsSubstring "rain" (toLowerCase "Clear, clouds and rain later") ∧
    IsSubstring "cloud" "Clear, clouds and rain later" ∧
    IsSubstring "rain" "Clear, clouds and rain later" ∧
    getTheme (some (.str "Clear, clouds and rain later")) = .ok .sunny ∧
    getTheme (some (.str "Clear, clouds and rain later")) ≠ .ok .cloudy := by
  refine ⟨by decide, by decide, by decide, by decide, rfl, ?_⟩
  intro h
  have h2 : getTheme (some (.str "Clear, clouds and rain later")) = .ok .sunny := rfl
  rw [h2] at h
  cases h

theorem themeOfString_no_keyword (s : String)
    (h : ∀ k ∈ keywords, ¬ IsSubstring k (toLowerCase s)) : themeOfString s = .mist := by
  simp only [keywords, List.mem_cons, List.mem_singleton, forall_eq_or_imp, forall_eq,
    List.not_mem_nil, false_implies, implies_true, and_true] at h
  obtain ⟨h1, h2, h3, h4, h5, h6, h7⟩ := h
  simp only [themeOfString, includes_eq_decide]
  simp [h1, h2, h3, h4, h5, h6, h7]

/-- C2 (amended): `getTheme` is total on labels with default `mist`. For every input
that is absent, `null` or a string, it returns exactly one of the six tags without
failing; and when the input is absent, `null`, the empty string, or a string whose
lowercased form contains none of the seven keywords, that tag is `mist`. -/
theorem getTheme_total_on_labels (main : JsVal) (hlabel : IsLabel main) :
    (∃! t : ThemeTag, getTheme main = .ok t) ∧
    ((main = none ∨ main = some .null ∨ main = some (.str "") ∨
        ∃ s, main = some (.str s) ∧ ∀ k ∈ keywords, ¬ IsSubstring k (toLowerCase s)) →
      getTheme main = .ok .mist) := by
  constructor
  · have hex : ∃ t : ThemeTag, getTheme main = .ok t := by
      match main, hlabel with
      | none, _ => exact ⟨.mist, rfl⟩
      | some .null, _ => exact ⟨.mist, rfl⟩
      | some (.str s), _ => exact ⟨themeOfString s, getTheme_str s⟩
    obtain ⟨t, ht⟩ := hex
    refine ⟨t, ht, ?_⟩
    intro t' ht'
    rw [ht] at ht'
    cases ht'
    rfl
  · rintro (h | h | h | ⟨s, h, hk⟩)
    · subst h; rfl
    · subst h; rfl
    · subst h; rfl
    · subst h
      rw [getTheme_str, themeOfString_no_keyword s hk]

/-- C2 (witness): the label "Haze" is a string and is classified `mist`. -/
theorem getTheme_total_on_labels_witness :
    IsLabel (some (.str "Haze")) ∧ ∃! t : ThemeTag, getTheme (some (.str "Haze")) = .ok t :=
  ⟨trivial, (getTheme_total_on_labels (some (.str "Haze")) trivial).1⟩

/-- C2 (counterexample): on the number 5, which is truthy and has no `toLowerCase`
method, `getTheme` throws and returns no tag. -/
theorem getTheme_throws_on_number :
    getTheme (some (.num 5)) = .error ⟨"main.toLowerCase is not a function"⟩ ∧
    ¬ ∃ t : ThemeTag, getTheme (some (.num 5)) = .ok t := by
  refine ⟨rfl, ?_⟩
  rintro ⟨t, ht⟩
  have h2 : getTheme (some (.num 5)) = .error ⟨"main.toLowerCase is not a function"⟩ := rfl
  rw [h2] at ht
  cases ht

/-- C3: every condition label that contains "clear" in any letter case is classified
`sunny`, whatever other keywords it contains; so are "CLEAR", "Clear sky" and
"clear then rain". -/
theorem getTheme_clear_is_sunny (label : String)
    (h : ContainsAnyCase label "clear" ∨ IsSubstring "clear" (toLowerCase label)) :
    getTheme (some (.str label)) = .ok .sunny ∧
    getTheme (some (.str "CLEAR")) = .ok .sunny ∧
    getTheme (some (.str "Clear sky")) = .ok .sunny ∧
    getTheme (some (.str "clear then rain")) = .ok .sunny := by
  refine ⟨?_, rfl, rfl, rfl⟩
  have hsub : IsSubstring "clear" (toLowerCase label) :=
    h.elim (isSubstring_of_containsAnyCase label "clear") id
  rw [getTheme_str]
  simp only [themeOfString, includes_eq_decide]
  simp [hsub]

/-- C3 (witness): "Storm clouds, ClEaR later" contains the block "ClEaR". -/
theorem getTheme_clear_is_sunny_witness :
    ContainsAnyCase "Storm clouds, ClEaR later" "clear" ∧
    getTheme (some (.str "Storm clouds, ClEaR later")) = .ok .sunny :=
  ⟨⟨"Storm clouds, ", "ClEaR", " later", by decide, by decide⟩,
   (getTheme_clear_is_sunny "Storm clouds, ClEaR later"
      (Or.inl ⟨"Storm clouds, ", "ClEaR", " later", by decide, by decide⟩)).1⟩

/-! ## Claims about the normaliser -/

theorem normalize_obj (kvs : List (String × Json)) :
    normalize (.obj kvs) =
      .ok (simplifiedOf (lookupKey "name" kvs) (lookupKey "sys" kvs) (lookupKey "main" kvs)
        (lookupKey "wind" kvs) (lookupKey "weather" kvs)) := rfl

theorem normalize_of_ne_null (data : Json) (h : data ≠ .null) :
    normalize data =
      .ok (simplifiedOf (optProp (some data) "name") (optProp (some data) "sys")
        (optProp (some data) "main") (optProp (some data) "wind")
        (optProp (some data) "weather")) := by
  cases data with
  | null => exact absurd rfl h
  | bool b => rfl
  | num n => rfl
  | str s => rfl
  | arr xs => rfl
  | obj kvs => rfl

theorem optProp_of_nullish (v : JsVal) (k : String) (h : nullish v = true) :
    optProp v k = none := by
  match v, h with
  | none, _ => rfl
  | some .null, _ => rfl

theorem optIndex0_of_nullish (v : JsVal) (h : nullish v = true) : optIndex0 v = none := by
  match v, h with
  | none, _ => rfl
  | some .null, _ => rfl

/-- C5 (amended): for every provider payload other than the JSON value `null` (an empty
object and a non-object value such as a number, a string, a boolean or an array
included), the normaliser produces a view model and raises no error, and a missing
(`undefined` or `null`) intermediate object `sys`, `main`, `wind`, `weather` or
`weather[0]` yields absent fields. -/
theorem normalize_total_of_ne_null (data : Json) (h : data ≠ .null) :
    ∃ vm, normalize data = .ok vm ∧
      (nullish (optProp (some data) "sys") = true → vm.country = none) ∧
      (nullish (optProp (some data) "main") = true →
        vm.temp = none ∧ vm.feels_like = none ∧ vm.humidity = none) ∧
      (nullish (optProp (some data) "wind") = true → vm.wind = none) ∧
      (nullish (optProp (some data) "weather") = true ∨
        nullish (optIndex0 (optProp (some data) "weather")) = true →
        vm.description = none ∧ vm.descriptionMain = none ∧ vm.icon = none ∧
          vm.main = none) := by
  refine ⟨_, normalize_of_ne_null data h, ?_, ?_, ?_, ?_⟩
  · intro hs
    simp [simplifiedOf, optProp_of_nullish _ _ hs]
  · intro hs
    simp [simplifiedOf, optProp_of_nullish _ _ hs]
  · intro hs
    simp [simplifiedOf, optProp_of_nullish _ _ hs]
  · intro hs
    have h0 : nullish (optIndex0 (optProp (some data) "weather")) = true := by
      rcases hs with hs | hs
      · rw [optIndex0_of_nullish _ hs]; rfl
      · exact hs
    simp [simplifiedOf, optProp_of_nullish _ _ h0]

/-- C5 (witness): the empty object is not `null` and normalises to a view model. -/
theorem normalize_total_of_ne_null_witness :
    ∃ vm, normalize (.obj []) = .ok vm ∧ vm.country = none ∧ vm.wind = none :=
  match normalize_total_of_ne_null (.obj []) (by intro h; cases h) with
  | ⟨vm, hvm, hsys, _, hwind, _⟩ => ⟨vm, hvm, hsys rfl, hwind rfl⟩

/-- C5 (counterexample): on the JSON body `null` the read `data.name` throws, so the
normaliser produces no view model. -/
theorem normalize_throws_on_null :
    normalize .null = .error ⟨"Cannot read properties of null"⟩ ∧
    ¬ ∃ vm, normalize .null = .ok vm := by
  refine ⟨rfl, ?_⟩
  rintro ⟨vm, hvm⟩
  have h2 : normalize .null = .error ⟨"Cannot read properties of null"⟩ := rfl
  rw [h2] at hvm
  cases hvm

/-- C6: for every object payload, normalising it with its wind block removed yields a
view model whose wind speed is absent and whose other nine fields equal those of the
view model of the payload itself. -/
theorem normalize_without_wind (kvs : List (String × Json)) :
    ∃ vm vm', normalize (.obj kvs) = .ok vm ∧
      normalize (.obj (removeKey "wind" kvs)) = .ok vm' ∧
      vm'.wind = none ∧
      vm'.name = vm.name ∧ vm'.country = vm.country ∧ vm'.temp = vm.temp ∧
      vm'.feels_like = vm.feels_like ∧ vm'.humidity = vm.humidity ∧
      vm'.description = vm.description ∧ vm'.descriptionMain = vm.descriptionMain ∧
      vm'.icon = vm.icon ∧ vm'.main = vm.main := by
  refine ⟨_, _, normalize_obj kvs, normalize_obj _, ?_⟩
  have hn : lookupKey "name" (removeKey "wind" kvs) = lookupKey "name" kvs :=
    lookupKey_removeKey _ _ _ (by decide)
  have hs : lookupKey "sys" (removeKey "wind" kvs) = lookupKey "sys" kvs :=
    lookupKey_removeKey _ _ _ (by decide)
  have hm : lookupKey "main" (removeKey "wind" kvs) = lookupKey "main" kvs :=
    lookupKey_removeKey _ _ _ (by decide)
  have hw : lookupKey "weather" (removeKey "wind" kvs) = lookupKey "weather" kvs :=
    lookupKey_removeKey _ _ _ (by decide)
  have hwind : lookupKey "wind" (removeKey "wind" kvs) = none :=
    lookupKey_removeKey_self _ _
  simp [simplifiedOf, hn, hs, hm, hw, hwind, optProp]

/-- C7: for every object payload whose `weather` property is an array `conds`, the
normaliser raises no exception; when `conds` is empty, description, icon, main and
descriptionMain are all absent; when `conds` has a first entry, these fields are the
optional reads of `description`, `icon` and `main` on that first entry alone. -/
theorem normalize_conditions (kvs : List (String × Json)) (conds : List Json)
    (h : lookupKey "weather" kvs = some (.arr conds)) :
    ∃ vm, normalize (.obj kvs) = .ok vm ∧
      (conds = [] →
        vm.description = none ∧ vm.icon = none ∧ vm.main = none ∧
          vm.descriptionMain = none) ∧
      (∀ first rest, conds = first :: rest →
        vm.description = optProp (some first) "description" ∧
        vm.icon = optProp (some first) "icon" ∧
        vm.main = optProp (some first) "main" ∧
        vm.descriptionMain = optProp (some first) "main") := by
  refine ⟨_, normalize_obj kvs, ?_, ?_⟩
  · intro hc
    subst hc
    simp only [simplifiedOf, h]
    exact ⟨rfl, rfl, rfl, rfl⟩
  · intro first rest hc
    subst hc
    simp only [simplifiedOf, h]
    exact ⟨rfl, rfl, rfl, rfl⟩

/-- C7 (witness): a payload with two condition entries takes the three fields from the
first entry. -/
theorem normalize_conditions_witness :
    ∃ vm, normalize (.obj [("weather", .arr [.obj [("main", .str "Rain"), ("icon", .str "10d")],
        .obj [("main", .str "Mist"), ("description", .str "mist")]])]) = .ok vm ∧
      vm.main = some (.str "Rain") ∧ vm.icon = some (.str "10d") ∧ vm.description = none :=
  match normalize_conditions
      [("weather", .arr [.obj [("main", .str "Rain"), ("icon", .str "10d")],
        .obj [("main", .str "Mist"), ("description", .str "mist")]])]
      [.obj [("main", .str "Rain"), ("icon", .str "10d")],
        .obj [("main", .str "Mist"), ("description", .str "mist")]] rfl with
  | ⟨vm, hvm, _, hfirst⟩ =>
    ⟨vm, hvm, (hfirst _ _ rfl).2.2.1, (hfirst _ _ rfl).2.1, (hfirst _ _ rfl).1⟩

/-! ## Claims about a search -/

theorem themeEffect_of_main (s : State) (vm : Simplified) (m : String)
    (hw : s.weather = some vm) (hmain : vm.main = some (.str m)) (hm : m ≠ "") :
    themeEffect s = .ok { s with theme := themeOfString m } := by
  have htruthy : truthy (some (.str m)) = true := by simp [truthy, hm]
  simp only [themeEffect, hw, hmain, jsOr, htruthy, if_true, getTheme_str]
  rfl

theorem asChild_of_primitive (v : JsVal) (h : isPrimitive v = true) : asChild v = .ok () := by
  match v, h with
  | none, _ => rfl
  | some .null, _ => rfl
  | some (.bool _), _ => rfl
  | some (.num _), _ => rfl
  | some (.str _), _ => rfl

theorem toPrimitive_of_primitive (v : JsVal) (h : isPrimitive v = true) :
    toPrimitive v = .ok () := by
  match v, h with
  | none, _ => rfl
  | some .null, _ => rfl
  | some (.bool _), _ => rfl
  | some (.num _), _ => rfl
  | some (.str _), _ => rfl

theorem renderCard_of_primitive (w : Simplified)
    (hname : isPrimitive w.name = true) (hcountry : isPrimitive w.country = true)
    (htemp : isPrimitive w.temp = true) (hfeels : isPrimitive w.feels_like = true)
    (hhum : isPrimitive w.humidity = true) (hwind : isPrimitive w.wind = true)
    (hdesc : isPrimitive w.description = true) (hicon : isPrimitive w.icon = true)
    (hmain : isPrimitive w.main = true) :
    renderCard w = .ok () := by
  simp only [renderCard, asChild_of_primitive _ hname, asChild_of_primitive _ hcountry,
    toPrimitive_of_primitive _ htemp, toPrimitive_of_primitive _ hfeels,
    asChild_of_primitive _ hhum, asChild_of_primitive _ hwind,
    asChild_of_primitive _ hdesc, toPrimitive_of_primitive _ hdesc,
    toPrimitive_of_primitive _ hicon, asChild_of_primitive _ hmain]
  cases truthy w.icon <;> rfl

theorem fetchWeather_of_tryBlock_ok (apiKey : Option String) (net : FetchResult)
    (q : String) (s : State) (vm : Simplified) (hq : q ≠ "")
    (hkey : keyPresent apiKey = true) (htry : tryBlock net = .ok vm) :
    fetchWeather apiKey net q s =
      { s with loading := false, error := "", weather := some vm } := by
  simp [fetchWeather, hq, hkey, htry]

theorem fetchWeather_of_tryBlock_error (apiKey : Option String) (net : FetchResult)
    (q : String) (s : State) (err : JsError) (hq : q ≠ "")
    (hkey : keyPresent apiKey = true) (htry : tryBlock net = .error err) :
    fetchWeather apiKey net q s =
      { s with loading := false, weather := none,
               error := if err.message != "" then err.message
                        else "Something went wrong." } := by
  simp [fetchWeather, hq, hkey, htry]

theorem validationFails_eq_false (apiKey : Option String) (q : String) (hq : q ≠ "")
    (hkey : keyPresent apiKey = true) : validationFails apiKey q = false := by
  simp [validationFails, hq, hkey]

theorem search_of_tryBlock_ok (apiKey : Option String) (net : FetchResult) (q : String)
    (s : State) (vm : Simplified) (m : String) (hq : q ≠ "")
    (hkey : keyPresent apiKey = true) (htry : tryBlock net = .ok vm)
    (hrender : renderCard vm = .ok ()) (hmain : vm.main = some (.str m)) (hm : m ≠ "") :
    search apiKey net q s =
      .ok { s with loading := false, error := "", weather := some vm,
                   theme := themeOfString m } := by
  have heffect := themeEffect_of_main
    { s with loading := false, error := "", weather := some vm } vm m rfl hmain hm
  have hr1 : render { s with loading := false, error := "", weather := some vm } = .ok () :=
    hrender
  have hr2 : render ({ s with loading := false, error := "", weather := some vm,
                                theme := themeOfString m } : State) = .ok () := hrender
  unfold search
  rw [fetchWeather_of_tryBlock_ok apiKey net q s vm hq hkey htry,
    validationFails_eq_false apiKey q hq hkey]
  simp only [hr1, heffect, bind, Except.bind, Bool.false_eq_true, if_false, hr2]
  rfl

theorem search_of_render_error (apiKey : Option String) (net : FetchResult) (q : String)
    (s : State) (vm : Simplified) (e : JsError) (hq : q ≠ "")
    (hkey : keyPresent apiKey = true) (htry : tryBlock net = .ok vm)
    (hrender : renderCard vm = .error e) :
    search apiKey net q s = .error e := by
  have hr1 : render { s with loading := false, error := "", weather := some vm } = .error e :=
    hrender
  unfold search
  rw [fetchWeather_of_tryBlock_ok apiKey net q s vm hq hkey htry]
  simp only [hr1]
  rfl

theorem search_of_tryBlock_error (apiKey : Option String) (net : FetchResult) (q : String)
    (s : State) (err : JsError) (hq : q ≠ "") (hkey : keyPresent apiKey = true)
    (htry : tryBlock net = .error err) :
    search apiKey net q s =
      .ok { s with loading := false, weather := none,
                   error := if err.message != "" then err.message
                            else "Something went wrong." } := by
  unfold search
  rw [fetchWeather_of_tryBlock_error apiKey net q s err hq hkey htry,
    validationFails_eq_false apiKey q hq hkey]
  rfl

theorem tryBlock_not_ok (status : Nat) (body : Body) (h : isOk status = false) :
    tryBlock (.response status body) = .error ⟨failureMessage status⟩ := by
  simp only [tryBlock, h, failureMessage]
  by_cases h1 : status = 404
  · simp [h1]
  · by_cases h2 : status = 401
    · simp [h2]
    · simp [h1, h2]

theorem failureMessage_ne_empty (status : Nat) : (failureMessage status != "") = true := by
  unfold failureMessage
  by_cases h1 : status = 404
  · simp [h1]
  · by_cases h2 : status = 401
    · simp [h2]
    · simp [h1, h2]

theorem search_of_empty_query (apiKey : Option String) (net : FetchResult) (s : State)
    (hshown : render s = .ok ()) :
    search apiKey net "" s = .ok { s with error := "Please enter a city name." } := by
  have hr : render { s with error := "Please enter a city name." } = .ok () := hshown
  have hf : fetchWeather apiKey net "" s = { s with error := "Please enter a city name." } := by
    simp [fetchWeather]
  have hv : validationFails apiKey "" = true := by simp [validationFails]
  unfold search
  rw [hf, hv]
  simp only [hr]
  rfl

theorem search_of_missing_key (apiKey : Option String) (net : FetchResult) (q : String)
    (s : State) (hq : q ≠ "") (hkey : keyPresent apiKey = false)
    (hshown : render s = .ok ()) :
    search apiKey net q s =
      .ok { s with error := "Missing API key. Add VITE_OPENWEATHER_KEY to .env." } := by
  have hr : render { s with error := "Missing API key. Add VITE_OPENWEATHER_KEY to .env." }
      = .ok () := hshown
  have hf : fetchWeather apiKey net q s =
      { s with error := "Missing API key. Add VITE_OPENWEATHER_KEY to .env." } := by
    simp [fetchWeather, hq, hkey]
  have hv : validationFails apiKey q = true := by simp [validationFails, hkey]
  unfold search
  rw [hf, hv]
  simp only [hr]
  rfl

theorem caught_message_ne_empty (message : String) :
    (if (message != "") = true then message else "Something went wrong.") ≠ "" := by
  by_cases h : message = ""
  · subst h; decide
  · simp [h]

theorem render_initial : render State.initial = .ok () := rfl

theorem render_of_search (apiKey : Option String) (net : FetchResult) (q : String)
    (s s' : State) (h : search apiKey net q s = .ok s') : render s' = .ok () := by
  unfold search at h
  simp only [bind, Except.bind, pure, Except.pure] at h
  cases h1 : render (fetchWeather apiKey net q s) with
  | error e => rw [h1] at h; cases h
  | ok u =>
    rw [h1] at h
    cases hv : validationFails apiKey q with
    | true =>
      rw [hv] at h
      simp only [if_true] at h
      cases h
      exact h1
    | false =>
      rw [hv] at h
      simp only [Bool.false_eq_true, if_false] at h
      cases h2 : themeEffect (fetchWeather apiKey net q s) with
      | error e => rw [h2] at h; cases h
      | ok s2 =>
        rw [h2] at h
        simp only at h
        cases h3 : render s2 with
        | error e => rw [h3] at h; cases h
        | ok u2 =>
          rw [h3] at h
          cases h
          exact h3

/-- C4 (amended): for every non-empty query, truthy credential and success response
(status 200 to 299, so 200 in particular) whose body is an object whose `weather` array
starts with an object with a non-empty string `main` equal to `m`, and whose view model
the card renders without throwing, the search settles showing that view model, and the
theme of the settled state is the tag `getTheme(m)`; for `m = "Rain"` it is `rain` and
the root element carries the class `rain`. -/
theorem search_success_applies_theme (apiKey : Option String) (q : String) (status : Nat)
    (kvs entry : List (String × Json)) (rest : List Json) (m : String) (s : State)
    (vm : Simplified)
    (hq : q ≠ "") (hkey : keyPresent apiKey = true) (hstatus : isOk status = true)
    (hweather : lookupKey "weather" kvs = some (.arr (.obj entry :: rest)))
    (hmain : lookupKey "main" entry = some (.str m)) (hm : m ≠ "")
    (hvm : normalize (.obj kvs) = .ok vm) (hrender : renderCard vm = .ok ()) :
    ∃ s', search apiKey (.response status (.ok (.obj kvs))) q s = .ok s' ∧
      getTheme (some (.str m)) = .ok s'.theme ∧
      s'.weather = some vm ∧
      (m = "Rain" → s'.theme = .rain ∧
        rootClass s' = if s.dark then "wc-app rain dark" else "wc-app rain light") ∧
      s'.error = "" ∧ s'.loading = false := by
  have htry : tryBlock (.response status (.ok (.obj kvs))) = .ok vm := by
    simp [tryBlock, hstatus, hvm]
  have hfield : vm.main = some (.str m) := by
    rw [normalize_obj] at hvm
    cases hvm
    simp only [simplifiedOf]
    rw [hweather]
    simpa [optIndex0, index0, optProp] using hmain
  refine ⟨_, search_of_tryBlock_ok apiKey _ q s vm m hq hkey htry hrender hfield hm,
    getTheme_str m, rfl, ?_, rfl, rfl⟩
  intro h
  subst h
  refine ⟨rfl, ?_⟩
  cases hd : s.dark
  · simp only [rootClass, hd]; rfl
  · simp only [rootClass, hd]; rfl

/-- C4 (witness): the query "Chennai" with a credential and a 200 response whose first
condition entry has `main` equal to "Rain" settles with theme `rain`. -/
theorem search_success_applies_theme_witness :
    ∃ s', search (some "key") (.response 200 (.ok (.obj [("name", .str "Chennai"),
        ("main", .obj [("temp", .num 31)]),
        ("weather", .arr [.obj [("main", .str "Rain"), ("icon", .str "10d")]])])))
        "Chennai" State.initial = .ok s' ∧ s'.theme = .rain ∧
        rootClass s' = "wc-app rain light" :=
  match search_success_applies_theme (some "key") "Chennai" 200
      [("name", .str "Chennai"), ("main", .obj [("temp", .num 31)]),
        ("weather", .arr [.obj [("main", .str "Rain"), ("icon", .str "10d")]])]
      [("main", .str "Rain"), ("icon", .str "10d")] [] "Rain" State.initial _
      (by decide) rfl rfl rfl rfl (by decide) rfl rfl with
  | ⟨s', hs', _, _, hrain, _⟩ => ⟨s', hs', (hrain rfl).1, (hrain rfl).2⟩

/-- C4 (counterexample): the query "Chennai" with a credential and the 200 response
`{"name": {"a": 1}, "weather": [{"main": "Rain"}]}`, whose first condition entry has
the main label "Rain": the child `{weather.name}` of line 213 is an object, the render
throws, and the search settles in no state, so no theme `rain` is applied. -/
theorem search_success_unrenderable_name :
    lookupKey "weather" [("name", Json.obj [("a", .num 1)]),
        ("weather", .arr [.obj [("main", .str "Rain")]])] =
      some (.arr [.obj [("main", .str "Rain")]]) ∧
    isOk 200 = true ∧ keyPresent (some "key") = true ∧
    search (some "key") (.response 200 (.ok (.obj [("name", .obj [("a", .num 1)]),
        ("weather", .arr [.obj [("main", .str "Rain")]])]))) "Chennai" State.initial =
      .error ⟨"Objects are not valid as a React child"⟩ ∧
    ¬ ∃ s', search (some "key") (.response 200 (.ok (.obj [("name", .obj [("a", .num 1)]),
        ("weather", .arr [.obj [("main", .str "Rain")]])]))) "Chennai" State.initial =
      .ok s' := by
  have hsearch : search (some "key") (.response 200 (.ok (.obj [("name", .obj [("a", .num 1)]),
      ("weather", .arr [.obj [("main", .str "Rain")]])]))) "Chennai" State.initial =
      .error ⟨"Objects are not valid as a React child"⟩ :=
    search_of_render_error (some "key") _ "Chennai" State.initial _ _ (by decide) rfl rfl rfl
  refine ⟨rfl, rfl, rfl, hsearch, ?_⟩
  rintro ⟨s', hs'⟩
  rw [hsearch] at hs'
  cases hs'

/-- C8: for every search that passes validation and receives a response whose `ok` flag
is false, the search settles with the error message fixed by the status alone ("City
not found." for 404, "Invalid API key (401)." for 401, "Failed to fetch weather." for
any other), with no weather view model and with `loading` false. -/
theorem search_non_success_message (apiKey : Option String) (q : String) (status : Nat)
    (body : Body) (s : State)
    (hq : q ≠ "") (hkey : keyPresent apiKey = true) (hstatus : isOk status = false) :
    ∃ s', search apiKey (.response status body) q s = .ok s' ∧
      s'.error = (if status = 404 then "City not found."
                  else if status = 401 then "Invalid API key (401)."
                  else "Failed to fetch weather.") ∧
      s'.weather = none ∧ s'.loading = false := by
  rw [search_of_tryBlock_error apiKey _ q s _ hq hkey (tryBlock_not_ok status body hstatus)]
  refine ⟨_, rfl, ?_, rfl, rfl⟩
  show (if (failureMessage status != "") = true then failureMessage status
        else "Something went wrong.") = _
  rw [if_pos (failureMessage_ne_empty status)]
  rfl

/-- C8 (witness): a 404 response to the query "Atlantis" shows "City not found.". -/
theorem search_non_success_message_witness :
    ∃ s', search (some "key") (.response 404 (.error "Unexpected token")) "Atlantis"
        State.initial = .ok s' ∧ s'.error = "City not found." ∧ s'.weather = none ∧
        s'.loading = false :=
  search_non_success_message (some "key") "Atlantis" 404 (.error "Unexpected token")
    State.initial (by decide) rfl rfl

/-- C10: the theme changes only on a successful search. For every search that ends in
an error, that is the empty query, the missing credential, a response whose `ok` flag
is false, a rejected request, or any other error caught by the `catch` block (the body
is not JSON, the body is `null`), the search settles with the theme it started with and
a non-empty error message. After a validation failure (empty query or missing
credential), from a state the widget displays, the state differs from the starting
state in the error message only; after the other failures, from any state, the
displayed weather is cleared and `loading` is false. -/
theorem search_error_keeps_theme (apiKey : Option String) (net : FetchResult) (q : String)
    (s : State)
    (herr : q = "" ∨ keyPresent apiKey = false ∨
      (∃ status body, net = .response status body ∧ isOk status = false) ∨
      (∃ message, net = .rejected message) ∨
      (∃ err, tryBlock net = .error err))
    (hshown : q = "" ∨ keyPresent apiKey = false → render s = .ok ()) :
    ∃ s', search apiKey net q s = .ok s' ∧ s'.theme = s.theme ∧ s'.error ≠ "" ∧
      (q = "" ∨ keyPresent apiKey = false →
        s'.weather = s.weather ∧ s'.loading = s.loading ∧ s' = { s with error := s'.error }) ∧
      (q ≠ "" → keyPresent apiKey = true → s'.weather = none ∧ s'.loading = false) := by
  by_cases hq : q = ""
  · subst hq
    refine ⟨_, search_of_empty_query apiKey net s (hshown (Or.inl rfl)), rfl, ?_, ?_, ?_⟩
    · show "Please enter a city name." ≠ ""
      decide
    · intro _; exact ⟨rfl, rfl, rfl⟩
    · intro h; exact absurd rfl h
  by_cases hkey : keyPresent apiKey = true
  · have htry : ∃ err, tryBlock net = .error err := by
      rcases herr with h | h | ⟨status, body, hnet, hst⟩ | ⟨message, hnet⟩ | h
      · exact absurd h hq
      · rw [hkey] at h; cases h
      · exact ⟨_, hnet ▸ tryBlock_not_ok status body hst⟩
      · exact ⟨⟨message⟩, hnet ▸ rfl⟩
      · exact h
    obtain ⟨err, htry⟩ := htry
    refine ⟨_, search_of_tryBlock_error apiKey net q s err hq hkey htry, rfl,
      caught_message_ne_empty err.message, ?_, ?_⟩
    · rintro (h | h)
      · exact absurd h hq
      · rw [hkey] at h; cases h
    · intro _ _; exact ⟨rfl, rfl⟩
  · have hkey' : keyPresent apiKey = false := by simpa using hkey
    refine ⟨_, search_of_missing_key apiKey net q s hq hkey' (hshown (Or.inr hkey')), rfl,
      ?_, ?_, ?_⟩
    · show "Missing API key. Add VITE_OPENWEATHER_KEY to .env." ≠ ""
      decide
    · intro _; exact ⟨rfl, rfl, rfl⟩
    · intro _ h; exact absurd h hkey

/-- C10 (witness): from a state showing rain, a 200 response for "London" whose body is
`null` ends in the `catch` block: the theme stays `rain`, the weather is cleared and
`loading` is false. -/
theorem search_error_keeps_theme_witness :
    ∃ s', search (some "key") (.response 200 (.ok .null)) "London"
        { State.initial with theme := .rain, weather := some (simplifiedOf none none none none none) }
        = .ok s' ∧ s'.theme = .rain ∧ s'.weather = none ∧ s'.loading = false :=
  match search_error_keeps_theme (some "key") (.response 200 (.ok .null)) "London"
      { State.initial with theme := .rain, weather := some (simplifiedOf none none none none none) }
      (Or.inr (Or.inr (Or.inr (Or.inr ⟨_, rfl⟩))))
      (fun h => h.elim (fun h1 => absurd h1 (by decide)) (fun h2 => absurd h2 (by decide))) with
  | ⟨s', hs', htheme, _, _, hclear⟩ =>
    ⟨s', hs', htheme, (hclear (by decide) rfl).1, (hclear (by decide) rfl).2⟩

/-! ## Claim about the dark-mode preference -/

/-- C9: for every boolean `d` and every store, the persist effect leaves under the key
"wc_dark_mode" exactly "1" when `d` is true and "0" when `d` is false; the load effect
run on that store from `dark = false` yields `d`; and mounting the component on that
store ends with `dark = d` and the same stored value. -/
theorem dark_preference_round_trip (d : Bool) (store : Storage) :
    darkKey = "wc_dark_mode" ∧
    getItem "wc_dark_mode" (persistDark d store) = some (if d then "1" else "0") ∧
    (getItem "wc_dark_mode" (persistDark d store) = some "1" ∨
      getItem "wc_dark_mode" (persistDark d store) = some "0") ∧
    loadDark (persistDark d store) false = d ∧
    (startup (persistDark d store)).1 = d ∧
    getItem "wc_dark_mode" (startup (persistDark d store)).2 = some (if d then "1" else "0") := by
  have hget : ∀ (b : Bool) (st : Storage),
      getItem "wc_dark_mode" (persistDark b st) = some (if b then "1" else "0") := by
    intro b st
    exact getItem_setItem darkKey (serializeDark b) st
  have hload : ∀ (b : Bool) (st : Storage), loadDark (persistDark b st) false = b := by
    intro b st
    have h := hget b st
    cases b
    · have h0 : getItem "wc_dark_mode" (persistDark false st) ≠ some "1" := by
        rw [h]; decide
      simp only [loadDark, darkKey]
      rw [if_neg h0]
    · have h1 : getItem "wc_dark_mode" (persistDark true st) = some "1" := h
      simp only [loadDark, darkKey]
      rw [if_pos h1]
  refine ⟨rfl, hget d store, ?_, hload d store, ?_, ?_⟩
  · cases d
    · exact Or.inr (hget false store)
    · exact Or.inl (hget true store)
  · exact hload d store
  · have h := hload d store
    cases d
    · simp only [startup, State.initial, h]
      exact hget false _
    · simp only [startup, State.initial, h]
      exact hget true _

end WeatherCard
